import Mathlib

/-!
Shallow embedding of two units of the jitsi-meet web client:

* the device-selection popup registry reducer
  (src/react/features/device-selection/actionTypes.js together with the
  ReducerRegistry.register callback), and
* the web Dialog component (src/unnamed/part_000): key handling, focus
  assignment, cancel suppression and the keydown-listener lifecycle.

JavaScript values are modelled by the inductive JSVal; object references
carry an explicit heap address so that reference equality and fresh
allocation are observable. Objects are association lists from field names
to values; the object spread in the reducer is modelled by spreadSet.
-/

set_option autoImplicit false

namespace JitsiMeet

/-- A JavaScript value, restricted to the shapes this code manipulates.
References and symbols carry identities (a heap address, a creation id) so
that strict equality on them is identity comparison, as in JS. -/
inductive JSVal where
  | undef
  | nullV
  | boolV (b : Bool)
  | num (n : Int)
  | str (s : String)
  | sym (id : Nat)
  | ref (addr : Nat)
deriving DecidableEq, Repr

/-- JavaScript strict equality on the modelled value shapes: equal kind and
equal payload; references compare by address, symbols by identity. -/
def strictEq (a b : JSVal) : Bool :=
  decide (a = b)

/-- A JavaScript object: fields in insertion order. -/
abbrev JSObject : Type := List (String × JSVal)

/-- Property read o.k: the value at the first matching field, or undefined
when the object has no such field. -/
def getField : JSObject → String → JSVal
  | [], _ => .undef
  | (k1, v) :: rest, k => if k1 = k then v else getField rest k

/-- Whether the object has a field with the given name. -/
def hasField : JSObject → String → Bool
  | [], _ => false
  | (k1, _) :: rest, k => if k1 = k then true else hasField rest k

/-- Replacement performed on each field by the trailing override of the
object spread: a field with the overridden name takes the new value, every
other field is untouched. -/
def overrideField (k : String) (v : JSVal) (p : String × JSVal) :
    String × JSVal :=
  if p.1 = k then (k, v) else p

/-- Object spread with a trailing override, as in the reducer body
(the literal spreading state and then writing popupDialog): every field of
the source keeps its position and value, except that the overridden field
takes the new value in place, or is appended when absent. -/
def spreadSet (o : JSObject) (k : String) (v : JSVal) : JSObject :=
  if hasField o k then
    o.map (overrideField k v)
  else
    o ++ [(k, v)]

/-- The JS heap of allocated objects; an address is an index into the list. -/
structure Heap where
  objs : List JSObject
deriving DecidableEq

/-- Dereference an address; out-of-range addresses read as the empty object
(never exercised by the theorems below, which track valid addresses). -/
def Heap.get (h : Heap) (a : Nat) : JSObject :=
  h.objs.getD a []

/-- Allocate a fresh object: the new address is the current heap size, so it
differs from every address already valid in the heap. -/
def Heap.alloc (h : Heap) (o : JSObject) : Heap × Nat :=
  (⟨h.objs ++ [o]⟩, h.objs.length)

/-- The action type of the device-selection feature,
SET_DEVICE_SELECTION_POPUP. The module creates it with
Symbol of the description string, so it is a unique symbol value, not the
string itself; we fix its identity as symbol 0. -/
def SET_DEVICE_SELECTION_POPUP : JSVal := .sym 0

/-- Body of the reducer registered for features/device-selection: when the
type field of the action is strictly equal to the SET_DEVICE_SELECTION_POPUP
symbol, return a freshly allocated object holding every field of the state
with popupDialog replaced by the popupDialog field of the action; otherwise
return the state reference unchanged. -/
def reduceBody (h : Heap) (s : Nat) (action : JSObject) : Heap × Nat :=
  if strictEq (getField action "type") SET_DEVICE_SELECTION_POPUP then
    h.alloc (spreadSet (h.get s) "popupDialog" (getField action "popupDialog"))
  else
    (h, s)

/-- The registered reducer with its default parameter: an absent state
defaults to a freshly allocated empty object before the body runs. -/
def deviceSelectionReducer (h : Heap) (state : Option Nat) (action : JSObject) :
    Heap × Nat :=
  match state with
  | some s => reduceBody h s action
  | none =>
      match h.alloc [] with
      | (h1, s1) => reduceBody h1 s1 action

/-- The ID to be used for the cancel button if enabled. -/
def CANCEL_BUTTON_ID : String := "modal-dialog-cancel-button"

/-- The ID to be used for the ok button if enabled. -/
def OK_BUTTON_ID : String := "modal-dialog-ok-button"

/-- The dialog properties the modelled methods read. -/
structure DialogProps where
  okDisabled : Bool
  cancelDisabled : Bool
  isModal : Bool
deriving DecidableEq, Repr

/-- The DOM element the component stores through its ref callback, abstracted
to what updateButtonFocus observes: whether the element contains the document
active element, and which element ids a querySelector by id can find in it. -/
structure DialogElement where
  containsActiveElement : Bool
  presentIds : List String
deriving DecidableEq, Repr

/-- querySelector with an attribute selector by id, reduced to whether an
element with that id is present in the dialog element. -/
def querySelectorById (d : DialogElement) (i : String) : Bool :=
  d.presentIds.contains i

/-- The observable outcome of one run of updateButtonFocus: which button, if
any, receives a focus call. -/
inductive FocusTarget where
  | noFocus
  | focusOk
  | focusCancel
deriving DecidableEq, Repr

/-- updateButtonFocus: with no dialog element it does nothing; when the
dialog element contains the active element it returns without changing
focus; otherwise it queries the cancel button when okDisabled and the ok
button when not, and focuses the queried button when it exists. -/
def updateButtonFocus (dialogElement : Option DialogElement)
    (props : DialogProps) : FocusTarget :=
  match dialogElement with
  | none => .noFocus
  | some d =>
      if d.containsActiveElement then
        .noFocus
      else if props.okDisabled then
        if querySelectorById d CANCEL_BUTTON_ID then .focusCancel else .noFocus
      else
        if querySelectorById d OK_BUTTON_ID then .focusOk else .noFocus

/-- renderCancelButton: null when cancelDisabled or isModal, otherwise the
cancel button element, represented by its id. -/
def renderCancelButton (props : DialogProps) : Option String :=
  if props.cancelDisabled || props.isModal then none
  else some CANCEL_BUTTON_ID

/-- onCancel of the web Dialog: returns early when isModal, otherwise calls
the inherited cancel handler of the superclass. The Bool records whether the
inherited handler is invoked. -/
def onCancel (props : DialogProps) : Bool :=
  if props.isModal then false else true

/-- Modelled from the spec: the inherited cancel handler (AbstractDialog is
not among the provided sources) dispatches the action that hides the dialog,
so after a dismissal signal the dialog remains open exactly when that
handler was not invoked. -/
def openAfterDismissal (props : DialogProps) : Bool :=
  !onCancel props

/-- A DOM keyboard event, reduced to the one field the handler reads. For a
physical key-down, the DOM supplies key as a string (for the Enter key, the
string Enter). -/
structure KeyEvent where
  key : JSVal
deriving DecidableEq, Repr

/-- The constant the handler compares against: the number 13. -/
def enterKeyCode : JSVal := .num 13

/-- onKeyDown of the web Dialog: invokes onSubmit exactly when the key field of the event is strictly equal to the numeric enterKeyCode. The Bool records
whether onSubmit is invoked. -/
def onKeyDown (e : KeyEvent) : Bool :=
  strictEq e.key enterKeyCode

/-- Lifecycle events that touch the document keydown listener: mount adds
the bound handler, unmount removes it. -/
inductive DialogLifecycleEvent where
  | mountEvent
  | unmountEvent
deriving DecidableEq, Repr

/-- Effect of one lifecycle event on whether the keydown handler of the component
is registered on the document. -/
def listenerStep (_ : Bool) : DialogLifecycleEvent → Bool
  | .mountEvent => true
  | .unmountEvent => false

/-- Whether the keydown handler of the component is registered after a sequence
of lifecycle events, starting unregistered. -/
def listenerRegistered (events : List DialogLifecycleEvent) : Bool :=
  events.foldl listenerStep false

/-- Whether dispatching a document keydown after the given lifecycle events
invokes onSubmit through this component: the handler must still be
registered and must take its submit branch. -/
def keydownInvokesSubmit (events : List DialogLifecycleEvent)
    (e : KeyEvent) : Bool :=
  listenerRegistered events && onKeyDown e

/-! Helper lemmas about field lookup, spread and allocation. -/

theorem getField_of_not_hasField (o : JSObject) (k : String)
    (h : hasField o k = false) : getField o k = .undef := by
  induction o with
  | nil => rfl
  | cons p rest ih =>
      obtain ⟨k1, v⟩ := p
      by_cases hk : k1 = k
      · simp [hasField, hk] at h
      · simp only [hasField, hk, if_false] at h
        simp [getField, hk, ih h]

theorem getField_append_single_self (o : JSObject) (k : String) (v : JSVal)
    (h : hasField o k = false) : getField (o ++ [(k, v)]) k = v := by
  induction o with
  | nil => simp [getField]
  | cons p rest ih =>
      obtain ⟨k1, w⟩ := p
      by_cases hk : k1 = k
      · simp [hasField, hk] at h
      · simp only [hasField, hk, if_false] at h
        simp [getField, hk, ih h]

theorem getField_append_single_ne (o : JSObject) (k k1 : String) (v : JSVal)
    (h : k1 ≠ k) : getField (o ++ [(k, v)]) k1 = getField o k1 := by
  induction o with
  | nil => simp [getField, Ne.symm h]
  | cons p rest ih =>
      obtain ⟨k2, w⟩ := p
      by_cases hk : k2 = k1
      · simp [getField, hk]
      · simp [getField, hk, ih]

theorem overrideField_eq_of_eq (k : String) (v : JSVal) (k1 : String)
    (w : JSVal) (h : k1 = k) : overrideField k v (k1, w) = (k, v) := by
  subst h
  simp [overrideField]

theorem overrideField_eq_of_ne (k : String) (v : JSVal) (k1 : String)
    (w : JSVal) (h : k1 ≠ k) : overrideField k v (k1, w) = (k1, w) := by
  simp [overrideField, h]

theorem getField_map_override_self (o : JSObject) (k : String) (v : JSVal)
    (h : hasField o k = true) :
    getField (o.map (overrideField k v)) k = v := by
  induction o with
  | nil => simp [hasField] at h
  | cons p rest ih =>
      obtain ⟨k1, w⟩ := p
      by_cases hk : k1 = k
      · rw [List.map_cons, overrideField_eq_of_eq k v k1 w hk]
        simp [getField]
      · simp only [hasField, hk, if_false] at h
        rw [List.map_cons, overrideField_eq_of_ne k v k1 w hk]
        simp [getField, hk, ih h]

theorem getField_map_override_ne (o : JSObject) (k k1 : String) (v : JSVal)
    (h : k1 ≠ k) :
    getField (o.map (overrideField k v)) k1 = getField o k1 := by
  induction o with
  | nil => rfl
  | cons p rest ih =>
      obtain ⟨k2, w⟩ := p
      by_cases hk : k2 = k
      · rw [List.map_cons, overrideField_eq_of_eq k v k2 w hk]
        subst hk
        simp [getField, Ne.symm h, ih]
      · rw [List.map_cons, overrideField_eq_of_ne k v k2 w hk]
        by_cases hk1 : k2 = k1
        · simp [getField, hk1]
        · simp [getField, hk1, ih]

theorem getField_spreadSet_self (o : JSObject) (k : String) (v : JSVal) :
    getField (spreadSet o k v) k = v := by
  unfold spreadSet
  by_cases h : hasField o k = true
  · simp [h, getField_map_override_self o k v h]
  · simp only [Bool.not_eq_true] at h
    simp [h, getField_append_single_self o k v h]

theorem getField_spreadSet_ne (o : JSObject) (k k1 : String) (v : JSVal)
    (h : k1 ≠ k) : getField (spreadSet o k v) k1 = getField o k1 := by
  unfold spreadSet
  by_cases hk : hasField o k = true
  · simp [hk, getField_map_override_ne o k k1 v h]
  · simp only [Bool.not_eq_true] at hk
    simp [hk, getField_append_single_ne o k k1 v h]

theorem hasField_append (o o2 : JSObject) (k : String) :
    hasField (o ++ o2) k = (hasField o k || hasField o2 k) := by
  induction o with
  | nil => simp [hasField]
  | cons p rest ih =>
      obtain ⟨k1, w⟩ := p
      by_cases hk : k1 = k
      · simp [hasField, hk]
      · simp [hasField, hk, ih]

theorem hasField_map_override (o : JSObject) (k k1 : String) (v : JSVal) :
    hasField (o.map (overrideField k v)) k1 = hasField o k1 := by
  induction o with
  | nil => rfl
  | cons p rest ih =>
      obtain ⟨k2, w⟩ := p
      by_cases hk : k2 = k
      · rw [List.map_cons, overrideField_eq_of_eq k v k2 w hk]
        subst hk
        simp [hasField, ih]
      · rw [List.map_cons, overrideField_eq_of_ne k v k2 w hk]
        simp [hasField, ih]

theorem map_override_of_not_hasField (o : JSObject) (k : String) (v : JSVal)
    (h : hasField o k = false) :
    o.map (overrideField k v) = o := by
  induction o with
  | nil => rfl
  | cons p rest ih =>
      obtain ⟨k1, w⟩ := p
      by_cases hk : k1 = k
      · simp [hasField, hk] at h
      · simp only [hasField, hk, if_false] at h
        simp [overrideField, hk, ih h]

theorem overrideField_idem (k : String) (v : JSVal) (p : String × JSVal) :
    overrideField k v (overrideField k v p) = overrideField k v p := by
  by_cases hk : p.1 = k
  · simp [overrideField, hk]
  · simp [overrideField, hk]

theorem spreadSet_spreadSet (o : JSObject) (k : String) (v : JSVal) :
    spreadSet (spreadSet o k v) k v = spreadSet o k v := by
  by_cases h : hasField o k = true
  · have h1 : spreadSet o k v = o.map (overrideField k v) := by
      simp [spreadSet, h]
    rw [h1]
    simp only [spreadSet, hasField_map_override, h, if_true, List.map_map]
    congr 1
    funext p
    exact overrideField_idem k v p
  · simp only [Bool.not_eq_true] at h
    have h1 : spreadSet o k v = o ++ [(k, v)] := by
      simp [spreadSet, h]
    have h2 : hasField (o ++ [(k, v)]) k = true := by
      simp [hasField_append, hasField]
    rw [h1]
    simp only [spreadSet, h2, if_true, List.map_append,
      map_override_of_not_hasField o k v h]
    simp [overrideField]

theorem getD_append_length (l : List JSObject) (o : JSObject) :
    (l ++ [o]).getD l.length [] = o := by
  induction l with
  | nil => rfl
  | cons a l ih =>
      rw [List.cons_append, List.length_cons, List.getD_cons_succ]
      exact ih

theorem Heap.get_alloc (h : Heap) (o : JSObject) :
    Heap.get (Heap.alloc h o).1 (Heap.alloc h o).2 = o := by
  simp only [Heap.alloc, Heap.get]
  exact getD_append_length h.objs o

/-! strictEq bridge lemmas. -/

theorem strictEq_eq_true_of_eq {a b : JSVal} (h : a = b) :
    strictEq a b = true := by
  simp [strictEq, h]

theorem strictEq_eq_false_of_ne {a b : JSVal} (h : a ≠ b) :
    strictEq a b = false := by
  simp [strictEq, h]

/-- Reduced form of the reducer on a set-popup action: the result is the
heap extended with the spread object, addressed at the old heap size. -/
theorem reduceBody_set (h : Heap) (s : Nat) (action : JSObject)
    (ht : getField action "type" = SET_DEVICE_SELECTION_POPUP) :
    deviceSelectionReducer h (some s) action =
      (⟨h.objs ++ [spreadSet (Heap.get h s) "popupDialog"
        (getField action "popupDialog")]⟩, h.objs.length) := by
  simp [deviceSelectionReducer, reduceBody, strictEq_eq_true_of_eq ht,
    Heap.alloc]

/-- Claim C2: for every state reference s and every action whose type field
is not the device-selection set-popup action type, the registered reducer
returns the very same state reference s, with the heap untouched. -/
theorem reducer_other_action_identity (h : Heap) (s : Nat) (action : JSObject)
    (ha : getField action "type" ≠ SET_DEVICE_SELECTION_POPUP) :
    deviceSelectionReducer h (some s) action = (h, s) := by
  simp [deviceSelectionReducer, reduceBody, strictEq_eq_false_of_ne ha]

/-- Witness for claim C2 at a concrete heap, state and foreign action. -/
theorem reducer_other_action_identity_witness :
    deviceSelectionReducer ⟨[[("popupDialog", JSVal.nullV)]]⟩ (some 0)
        [("type", JSVal.str "OTHER_ACTION")] =
      (⟨[[("popupDialog", JSVal.nullV)]]⟩, 0) :=
  reducer_other_action_identity _ _ _ (by decide)

/-- Claim C3: reducing any state with a set-popup action carrying reference
r yields a state whose popupDialog field is r, while every other field of
the result keeps the exact value, hence the same reference, it has in the
input state. -/
theorem reducer_set_popup_updates_and_frames (h : Heap) (s : Nat)
    (action : JSObject) (r : JSVal)
    (ht : getField action "type" = SET_DEVICE_SELECTION_POPUP)
    (hr : getField action "popupDialog" = r) :
    getField (Heap.get (deviceSelectionReducer h (some s) action).1
      (deviceSelectionReducer h (some s) action).2) "popupDialog" = r ∧
    ∀ k : String, k ≠ "popupDialog" →
      getField (Heap.get (deviceSelectionReducer h (some s) action).1
        (deviceSelectionReducer h (some s) action).2) k =
      getField (Heap.get h s) k := by
  rw [reduceBody_set h s action ht]
  have hg : Heap.get (⟨h.objs ++ [spreadSet (Heap.get h s) "popupDialog"
      (getField action "popupDialog")]⟩ : Heap) h.objs.length =
      spreadSet (Heap.get h s) "popupDialog"
        (getField action "popupDialog") :=
    getD_append_length h.objs _
  constructor
  · rw [hg, getField_spreadSet_self, hr]
  · intro k hk
    rw [hg, getField_spreadSet_ne _ _ _ _ hk]

/-- Witness for claim C3 at a concrete heap, state and set-popup action. -/
theorem reducer_set_popup_updates_and_frames_witness :
    getField (Heap.get
      (deviceSelectionReducer ⟨[[("x", JSVal.num 1)]]⟩ (some 0)
        [("type", JSVal.sym 0), ("popupDialog", JSVal.ref 7)]).1
      (deviceSelectionReducer ⟨[[("x", JSVal.num 1)]]⟩ (some 0)
        [("type", JSVal.sym 0), ("popupDialog", JSVal.ref 7)]).2)
      "popupDialog" = JSVal.ref 7 ∧
    getField (Heap.get
      (deviceSelectionReducer ⟨[[("x", JSVal.num 1)]]⟩ (some 0)
        [("type", JSVal.sym 0), ("popupDialog", JSVal.ref 7)]).1
      (deviceSelectionReducer ⟨[[("x", JSVal.num 1)]]⟩ (some 0)
        [("type", JSVal.sym 0), ("popupDialog", JSVal.ref 7)]).2) "x" =
      getField (Heap.get ⟨[[("x", JSVal.num 1)]]⟩ 0) "x" :=
  ⟨(reducer_set_popup_updates_and_frames ⟨[[("x", JSVal.num 1)]]⟩ 0
      [("type", JSVal.sym 0), ("popupDialog", JSVal.ref 7)] (JSVal.ref 7)
      (by decide) (by decide)).1,
    (reducer_set_popup_updates_and_frames ⟨[[("x", JSVal.num 1)]]⟩ 0
      [("type", JSVal.sym 0), ("popupDialog", JSVal.ref 7)] (JSVal.ref 7)
      (by decide) (by decide)).2 "x" (by decide)⟩

/-- Claim C8: the registered reducer is total (it returns a state for every
heap, every optional input state and every action object); an absent input
state defaults to an empty object; and a malformed action with no type
field takes the identity branch, leaving a present state unchanged by
reference and an absent state at the default empty object. -/
theorem reducer_total_and_malformed (h : Heap) (state : Option Nat)
    (action : JSObject) :
    (∃ h1 s1, deviceSelectionReducer h state action = (h1, s1)) ∧
    (hasField action "type" = false →
      (∀ s : Nat, state = some s →
        deviceSelectionReducer h state action = (h, s)) ∧
      (state = none →
        Heap.get (deviceSelectionReducer h state action).1
          (deviceSelectionReducer h state action).2 = [])) := by
  have hmal : hasField action "type" = false →
      strictEq (getField action "type") SET_DEVICE_SELECTION_POPUP = false := by
    intro hm
    rw [getField_of_not_hasField action "type" hm]
    rfl
  refine ⟨⟨_, _, rfl⟩, fun hm => ⟨?_, ?_⟩⟩
  · intro s hs
    subst hs
    simp [deviceSelectionReducer, reduceBody, hmal hm]
  · intro hs
    subst hs
    have hred : deviceSelectionReducer h none action =
        (⟨h.objs ++ [[]]⟩, h.objs.length) := by
      simp [deviceSelectionReducer, Heap.alloc, reduceBody, hmal hm]
    rw [hred]
    exact getD_append_length h.objs []

/-- Witness for claim C8: a malformed action without a type field leaves a
concrete present state untouched. -/
theorem reducer_total_and_malformed_witness :
    deviceSelectionReducer ⟨[[("popupDialog", JSVal.ref 2)]]⟩ (some 0) [] =
      (⟨[[("popupDialog", JSVal.ref 2)]]⟩, 0) :=
  ((reducer_total_and_malformed ⟨[[("popupDialog", JSVal.ref 2)]]⟩ (some 0)
      []).2 (by decide)).1 0 rfl

/-- Claim C9, amended: the sole action the popup registry consumes is the
one whose type field is the unique SET_DEVICE_SELECTION_POPUP symbol the
module creates (not the string of that name): such an action triggers the
popupDialog update, and an action with any other type value returns the
state unchanged. -/
theorem reducer_sole_consumed_action (h : Heap) (s : Nat)
    (action : JSObject) :
    (getField action "type" = SET_DEVICE_SELECTION_POPUP →
      getField (Heap.get (deviceSelectionReducer h (some s) action).1
        (deviceSelectionReducer h (some s) action).2) "popupDialog" =
        getField action "popupDialog") ∧
    (getField action "type" ≠ SET_DEVICE_SELECTION_POPUP →
      deviceSelectionReducer h (some s) action = (h, s)) := by
  constructor
  · intro ht
    rw [reduceBody_set h s action ht]
    have hg : Heap.get (⟨h.objs ++ [spreadSet (Heap.get h s) "popupDialog"
        (getField action "popupDialog")]⟩ : Heap) h.objs.length =
        spreadSet (Heap.get h s) "popupDialog"
          (getField action "popupDialog") :=
      getD_append_length h.objs _
    rw [hg, getField_spreadSet_self]
  · intro ha
    simp [deviceSelectionReducer, reduceBody, strictEq_eq_false_of_ne ha]

/-- Witness for the amended claim C9 at a concrete set-popup action. -/
theorem reducer_sole_consumed_action_witness :
    getField (Heap.get
      (deviceSelectionReducer ⟨[[]]⟩ (some 0)
        [("type", JSVal.sym 0), ("popupDialog", JSVal.ref 4)]).1
      (deviceSelectionReducer ⟨[[]]⟩ (some 0)
        [("type", JSVal.sym 0), ("popupDialog", JSVal.ref 4)]).2)
      "popupDialog" =
      getField [("type", JSVal.sym 0), ("popupDialog", JSVal.ref 4)]
        "popupDialog" :=
  (reducer_sole_consumed_action ⟨[[]]⟩ 0
    [("type", JSVal.sym 0), ("popupDialog", JSVal.ref 4)]).1 (by decide)

/-- Claim C9 counterexample: an action whose type field is the string value
SET_DEVICE_SELECTION_POPUP, rather than the unique symbol the module
creates, does not trigger the popupDialog update: the reducer returns the
input state reference unchanged and the stored popupDialog is not the
carried reference. -/
theorem reducer_string_type_no_update :
    deviceSelectionReducer ⟨[[("popupDialog", JSVal.nullV)]]⟩ (some 0)
        [("type", JSVal.str "SET_DEVICE_SELECTION_POPUP"),
          ("popupDialog", JSVal.ref 7)] =
      (⟨[[("popupDialog", JSVal.nullV)]]⟩, 0) ∧
    getField (Heap.get ⟨[[("popupDialog", JSVal.nullV)]]⟩ 0) "popupDialog" ≠
      JSVal.ref 7 := by
  decide

/-- Claim C10: on a set-popup action the reducer returns a freshly
allocated state reference, distinct from the input reference even when the
carried popupDialog equals the stored one; reducing twice in a row with the
same set action yields reference-distinct but value-equal states. -/
theorem reducer_set_popup_fresh (h : Heap) (s : Nat) (action : JSObject)
    (hs : s < h.objs.length)
    (ht : getField action "type" = SET_DEVICE_SELECTION_POPUP) :
    ∀ (h1 : Heap) (s1 : Nat) (h2 : Heap) (s2 : Nat),
      deviceSelectionReducer h (some s) action = (h1, s1) →
      deviceSelectionReducer h1 (some s1) action = (h2, s2) →
      s1 ≠ s ∧ s2 ≠ s1 ∧ Heap.get h2 s2 = Heap.get h1 s1 := by
  intro h1 s1 h2 s2 e1 e2
  rw [reduceBody_set h s action ht, Prod.mk.injEq] at e1
  obtain ⟨eh1, es1⟩ := e1
  subst eh1
  subst es1
  rw [reduceBody_set _ _ action ht, Prod.mk.injEq] at e2
  obtain ⟨eh2, es2⟩ := e2
  subst eh2
  subst es2
  have hg : Heap.get (⟨h.objs ++ [spreadSet (Heap.get h s) "popupDialog"
      (getField action "popupDialog")]⟩ : Heap) h.objs.length =
      spreadSet (Heap.get h s) "popupDialog"
        (getField action "popupDialog") :=
    getD_append_length h.objs _
  refine ⟨Nat.ne_of_gt hs, ?_, ?_⟩
  · simp
  · rw [hg, spreadSet_spreadSet]
    exact getD_append_length _ _

/-- Witness for claim C10 at a concrete heap, state and set-popup action
whose carried reference equals the stored popupDialog. -/
theorem reducer_set_popup_fresh_witness :
    (1 : Nat) ≠ 0 ∧ (2 : Nat) ≠ 1 ∧
    Heap.get ⟨[[("popupDialog", JSVal.ref 3)],
        [("popupDialog", JSVal.ref 3)], [("popupDialog", JSVal.ref 3)]]⟩ 2 =
      Heap.get ⟨[[("popupDialog", JSVal.ref 3)],
        [("popupDialog", JSVal.ref 3)]]⟩ 1 :=
  reducer_set_popup_fresh ⟨[[("popupDialog", JSVal.ref 3)]]⟩ 0
    [("type", JSVal.sym 0), ("popupDialog", JSVal.ref 3)]
    (by decide) (by decide)
    ⟨[[("popupDialog", JSVal.ref 3)], [("popupDialog", JSVal.ref 3)]]⟩ 1
    ⟨[[("popupDialog", JSVal.ref 3)], [("popupDialog", JSVal.ref 3)],
      [("popupDialog", JSVal.ref 3)]]⟩ 2
    (by decide) (by decide)

/-- Helper: with no mount event in the trace, the keydown handler stays
unregistered. -/
theorem listenerRegistered_of_no_mount (post : List DialogLifecycleEvent)
    (hpost : DialogLifecycleEvent.mountEvent ∉ post) :
    listenerRegistered post = false := by
  induction post with
  | nil => rfl
  | cons ev rest ih =>
      cases ev with
      | mountEvent => simp at hpost
      | unmountEvent =>
          simp only [List.mem_cons, not_or] at hpost
          simpa [listenerRegistered, listenerStep] using ih hpost.2

/-- Claim C1, the code evaluated at the failing input: a DOM key-down event
carries its key as a string (the Enter key arrives as the string Enter),
while the handler compares that key with the number 13 under strict
equality, so the dispatch never reaches onSubmit, for any lifecycle trace
and any string-keyed event. -/
theorem keydown_enter_never_submits (events : List DialogLifecycleEvent)
    (s : String) :
    keydownInvokesSubmit events ⟨JSVal.str s⟩ = false := by
  simp [keydownInvokesSubmit, onKeyDown, strictEq, enterKeyCode]

/-- Claim C4: while isModal is true the cancel control is never rendered,
a cancellation or dismissal request does not invoke the inherited cancel
handler, and the dialog stays open. -/
theorem modal_suppresses_cancel (props : DialogProps)
    (hm : props.isModal = true) :
    renderCancelButton props = none ∧ onCancel props = false ∧
      openAfterDismissal props = true := by
  simp [renderCancelButton, onCancel, openAfterDismissal, hm]

/-- Witness for claim C4 at concrete modal dialog properties. -/
theorem modal_suppresses_cancel_witness :
    renderCancelButton ⟨false, false, true⟩ = none ∧
      onCancel ⟨false, false, true⟩ = false ∧
      openAfterDismissal ⟨false, false, true⟩ = true :=
  modal_suppresses_cancel ⟨false, false, true⟩ rfl

/-- Claim C5: when focus assignment runs and the dialog does not already
contain the focused element, the confirm control is selected when the
confirm action is enabled, regardless of the cancel action, and the cancel
control is selected when confirm is disabled; whenever the selected control
is absent from the dialog, nothing is focused. -/
theorem updateButtonFocus_selection (props : DialogProps) (d : DialogElement)
    (hfocus : d.containsActiveElement = false) :
    (props.okDisabled = false →
      updateButtonFocus (some d) props =
        (if querySelectorById d OK_BUTTON_ID then FocusTarget.focusOk
          else FocusTarget.noFocus)) ∧
    (props.okDisabled = true →
      updateButtonFocus (some d) props =
        (if querySelectorById d CANCEL_BUTTON_ID then FocusTarget.focusCancel
          else FocusTarget.noFocus)) := by
  constructor <;> intro hok <;> simp [updateButtonFocus, hfocus, hok]

/-- Witness for claim C5: an enabled confirm action in a dialog element
holding only the ok button gets the focus. -/
theorem updateButtonFocus_selection_witness :
    updateButtonFocus (some ⟨false, [OK_BUTTON_ID]⟩) ⟨false, false, false⟩ =
      (if querySelectorById ⟨false, [OK_BUTTON_ID]⟩ OK_BUTTON_ID then
        FocusTarget.focusOk else FocusTarget.noFocus) :=
  (updateButtonFocus_selection ⟨false, false, false⟩ ⟨false, [OK_BUTTON_ID]⟩
    rfl).1 rfl

/-- Claim C6: once the trace contains the unmount event and the component is
never mounted again afterwards, the keydown handler is deregistered, so a
subsequent key-down invokes nothing through this component and in
particular never reaches onSubmit. -/
theorem unmounted_keydown_no_effect (pre post : List DialogLifecycleEvent)
    (e : KeyEvent)
    (hpost : DialogLifecycleEvent.mountEvent ∉ post) :
    listenerRegistered
        (pre ++ DialogLifecycleEvent.unmountEvent :: post) = false ∧
    keydownInvokesSubmit
        (pre ++ DialogLifecycleEvent.unmountEvent :: post) e = false := by
  have hreg : listenerRegistered
      (pre ++ DialogLifecycleEvent.unmountEvent :: post) = false := by
    unfold listenerRegistered
    rw [List.foldl_append, List.foldl_cons]
    have h0 : listenerStep (List.foldl listenerStep false pre)
        DialogLifecycleEvent.unmountEvent = false := rfl
    rw [h0]
    exact listenerRegistered_of_no_mount post hpost
  exact ⟨hreg, by simp [keydownInvokesSubmit, hreg]⟩

/-- Witness for claim C6: mount then unmount, followed by an Enter keydown,
invokes nothing. -/
theorem unmounted_keydown_no_effect_witness :
    listenerRegistered [DialogLifecycleEvent.mountEvent,
        DialogLifecycleEvent.unmountEvent] = false ∧
    keydownInvokesSubmit [DialogLifecycleEvent.mountEvent,
        DialogLifecycleEvent.unmountEvent] ⟨JSVal.str "Enter"⟩ = false :=
  unmounted_keydown_no_effect [DialogLifecycleEvent.mountEvent] []
    ⟨JSVal.str "Enter"⟩ (by simp)

/-- Claim C7: whenever focus assignment runs while the dialog element
already contains the focused element, no control is focused, whatever the
enabled state of the two actions. -/
theorem updateButtonFocus_respects_existing (props : DialogProps)
    (d : DialogElement) (hfocus : d.containsActiveElement = true) :
    updateButtonFocus (some d) props = FocusTarget.noFocus := by
  simp [updateButtonFocus, hfocus]

/-- Witness for claim C7 at a concrete dialog element containing the active
element and both buttons. -/
theorem updateButtonFocus_respects_existing_witness :
    updateButtonFocus
      (some ⟨true, [CANCEL_BUTTON_ID, OK_BUTTON_ID]⟩) ⟨false, false, false⟩ =
      FocusTarget.noFocus :=
  updateButtonFocus_respects_existing ⟨false, false, false⟩
    ⟨true, [CANCEL_BUTTON_ID, OK_BUTTON_ID]⟩ rfl

end JitsiMeet
